import Mathlib

/-!
Verification of the action-execution and error-recovery core of the
clickytheclicker repository: a shallow embedding of
`modules/action_controller.py` (`ActionController.run_automation`,
`perform_action`, `load_actions`, `save_actions`) and
`modules/error_recovery.py` (`ErrorRecoveryManager`, `RecoveryAction`,
`RecoveryStrategy`), together with theorems settling the spec's claims
about the execution loop, the recovery policy resolver and the
checkpoint store.

Modelling conventions:
* Python dict-shaped actions are embedded as structures carrying exactly
  the fields the core reads (`type`, `required`, `retry_count`,
  `on_failure`, payload fields the loop never inspects are irrelevant to
  loop behaviour and are not tracked).
* The external world (input dispatcher / target locator outcomes) is an
  oracle `Nat → Bool` consulted once per dispatch attempt; `wait`
  actions always succeed and unknown action types always fail, exactly
  as in `perform_action`.
* `time.sleep` calls are no-ops in the model; timestamps are modelled by
  a per-iteration counter (`step_no`).
* Machine floats that are only stored and compared (wait times, click
  interval) are modelled as rationals.
-/

namespace Clicky

/-- One checkpoint record built by `ErrorRecoveryManager.create_checkpoint`
(error_recovery.py lines 103-107): the action index at creation time plus
a creation timestamp (`time.time()`, modelled as a `Nat` tick so that
distinct creations are distinguishable). The optional screenshot path is
diagnostic only and never read by recovery logic, so it is not tracked. -/
structure Checkpoint where
  action_index : Nat
  created_at : Nat
deriving DecidableEq, Repr

/-- The RecoveryStrategy enum (error_recovery.py lines 19-26). -/
inductive RecoveryStrategy where
  | RETRY
  | WAIT_AND_RETRY
  | FALLBACK
  | CHECKPOINT
  | SKIP
  | ABORT
deriving DecidableEq, Repr

/-- Lookup of a RecoveryStrategy by wire string, as in the enum call
`RecoveryStrategy(value)` (the enum values
"retry", "wait", "fallback", "checkpoint", "skip", "abort"); `none`
models the `ValueError` raised on an unknown string. -/
def RecoveryStrategy.ofValue? : String → Option RecoveryStrategy
  | "retry" => some .RETRY
  | "wait" => some .WAIT_AND_RETRY
  | "fallback" => some .FALLBACK
  | "checkpoint" => some .CHECKPOINT
  | "skip" => some .SKIP
  | "abort" => some .ABORT
  | _ => none

/-- The keys of the `params` dict a `RecoveryAction` carries; a `none`
field models an absent key (so `params.get(key, default)` is `getD`). -/
structure RecoveryParams where
  max_retries : Option Nat
  wait_time : Option ℚ
deriving DecidableEq, Repr

/-- An action as read by the core loop: the `type` string, the
`required` flag (`action.get('required', False)`), and the per-call
retry count (`action.get('retry_count', 0)`). This is also the shape of
a fallback action carried by a recovery directive (whose own
`on_failure`, if any, is never read by the loop). -/
structure BaseAction where
  type : String
  required : Bool
  retry_count : Nat
deriving DecidableEq, Repr

/-- The `on_failure` dict of an action (error_recovery.py lines 268-277):
`strategy` models `on_failure.get('strategy', 'retry')` (absent key =
`none`), the params keys model `on_failure.get('params', {})`, and
`fallback_action` models `on_failure.get('fallback_action')`. -/
structure OnFailure where
  strategy : Option String
  max_retries : Option Nat
  wait_time : Option ℚ
  fallback_action : Option BaseAction
deriving DecidableEq, Repr

/-- A stored action: the fields of `BaseAction` plus the optional
explicit `on_failure` recovery override. -/
structure Action where
  type : String
  required : Bool
  retry_count : Nat
  on_failure : Option OnFailure
deriving DecidableEq, Repr

/-- Forget the `on_failure` field: the loop-local `action` variable in
`run_automation` only ever has its `type`/`required`/`retry_count` read
after fetch. -/
def Action.toBase (a : Action) : BaseAction :=
  ⟨a.type, a.required, a.retry_count⟩

/-- A RecoveryAction (error_recovery.py lines 28-54): strategy, params
and optional fallback action; the constructor fills in default params
(`max_retries = 3` for RETRY if absent, `wait_time = 2.0` for
WAIT_AND_RETRY if absent). -/
structure RecoveryAction where
  strategy : RecoveryStrategy
  params : RecoveryParams
  fallback_action : Option BaseAction
deriving DecidableEq, Repr

/-- The constructor RecoveryAction.__init__ (error_recovery.py
lines 33-54) including
its strategy-dependent parameter defaulting. -/
def RecoveryAction.make (strategy : RecoveryStrategy) (params : RecoveryParams)
    (fallback_action : Option BaseAction) : RecoveryAction :=
  let p1 := if strategy = RecoveryStrategy.RETRY ∧ params.max_retries = none then
      { params with max_retries := some 3 }
    else params
  let p2 := if strategy = RecoveryStrategy.WAIT_AND_RETRY ∧ p1.wait_time = none then
      { p1 with wait_time := some 2 }
    else p1
  ⟨strategy, p2, fallback_action⟩

/-- The kind-based default directives of
`ErrorRecoveryManager.get_recovery_for_action`
(error_recovery.py lines 281-317). -/
def defaultRecoveryFor (action_type : String) : RecoveryAction :=
  if action_type = "click_text" then
    RecoveryAction.make .WAIT_AND_RETRY ⟨some 3, some 2⟩ none
  else if action_type = "click_template" then
    RecoveryAction.make .WAIT_AND_RETRY ⟨some 3, some (3/2)⟩ none
  else if action_type = "click_position" then
    RecoveryAction.make .RETRY ⟨some 2, none⟩ none
  else if action_type = "type_text" then
    RecoveryAction.make .RETRY ⟨some 2, none⟩ none
  else
    RecoveryAction.make .RETRY ⟨some 1, none⟩ none

/-- The resolver ErrorRecoveryManager.get_recovery_for_action
(error_recovery.py lines 257-317): an explicit `on_failure` override is
parsed (`strategy` key defaulting to "retry"); an unknown strategy
string (`ValueError`) falls through to the kind-based default. -/
def get_recovery_for_action (action : Action) : RecoveryAction :=
  match action.on_failure with
  | some onf =>
    match RecoveryStrategy.ofValue? (onf.strategy.getD "retry") with
    | some strat => RecoveryAction.make strat ⟨onf.max_retries, onf.wait_time⟩ onf.fallback_action
    | none => defaultRecoveryFor action.type
  | none => defaultRecoveryFor action.type

/-- The store update of ErrorRecoveryManager.create_checkpoint on the checkpoint
list (error_recovery.py lines 142-156): append the new checkpoint, then
if the list exceeds 5 entries pop the oldest (`self.checkpoints.pop(0)`;
the best-effort deletion of that checkpoint's snapshot file is
filesystem I/O with no effect on the store). -/
def create_checkpoint (cps : List Checkpoint) (cp : Checkpoint) : List Checkpoint :=
  let cps1 := cps ++ [cp]
  if 5 < cps1.length then cps1.drop 1 else cps1

/-- The query ErrorRecoveryManager.get_latest_checkpoint
(error_recovery.py lines 158-167). -/
def get_latest_checkpoint (cps : List Checkpoint) : Option Checkpoint :=
  cps.getLast?

/-- The query ErrorRecoveryManager.get_checkpoint_before_action
(error_recovery.py lines 169-182): filter the stored checkpoints to
those with `action_index < action_index` argument and return the last
of them (`valid_checkpoints[-1]`), or `none` if the filter is empty. -/
def get_checkpoint_before_action (cps : List Checkpoint) (action_index : Nat) :
    Option Checkpoint :=
  (cps.filter (fun cp => cp.action_index < action_index)).getLast?

/-- The directive application ErrorRecoveryManager.apply_recovery_strategy
(error_recovery.py lines 184-255), returning
`(success, next_action, next_action_index)`. The recovery-history append
is an audit log never read by the loop and is not tracked; the
`time.sleep(wait_time)` of WAIT_AND_RETRY is a no-op in the model.
`next_action_index` is an `Int` because ABORT returns `-1`. -/
def apply_recovery_strategy (cps : List Checkpoint) (failed_action : BaseAction)
    (recovery : RecoveryAction) (action_index : Nat) :
    Bool × Option BaseAction × Int :=
  match recovery.strategy with
  | .RETRY => (true, some failed_action, (action_index : Int))
  | .WAIT_AND_RETRY => (true, some failed_action, (action_index : Int))
  | .FALLBACK =>
    match recovery.fallback_action with
    | some fb => (true, some fb, (action_index : Int))
    | none => (false, none, (action_index : Int))
  | .CHECKPOINT =>
    match get_checkpoint_before_action cps action_index with
    | some cp => (true, none, (cp.action_index : Int))
    | none => (false, none, (action_index : Int))
  | .SKIP => (true, none, (action_index : Int) + 1)
  | .ABORT => (false, none, -1)

/-- One resolve+dispatch attempt of `ActionController.perform_action`
(action_controller.py lines 388-556), abstracted over the external
world: for the four dispatching kinds (`click_position`, `click_text`,
`click_template`, `type_text`) the outcome is the next oracle answer
(locator/dispatcher success), consuming one oracle position; a `wait`
action always succeeds; an unknown type always fails. Returns
`(success, next oracle position)`. -/
def performOnce (oracle : Nat → Bool) (action_type : String) (k : Nat) : Bool × Nat :=
  if action_type = "wait" then (true, k)
  else if action_type = "click_position" ∨ action_type = "click_text" ∨
      action_type = "click_template" ∨ action_type = "type_text" then
    (oracle k, k + 1)
  else (false, k)

/-- The `for attempt in range(retry_count + 1)` loop of `perform_action`
(action_controller.py lines 384-578): re-attempt until success or
attempts are exhausted (the 0.5s pause between attempts is a no-op in
the model). -/
def performLoop (oracle : Nat → Bool) (action_type : String) :
    Nat → Nat → Bool × Nat
  | k, 0 => (false, k)
  | k, attempts + 1 =>
    let r := performOnce oracle action_type k
    if r.1 then (true, r.2) else performLoop oracle action_type r.2 attempts

/-- The call ActionController.perform_action on the fields the loop
observes:
`retry_count + 1` attempts of resolve+dispatch. -/
def perform_action (oracle : Nat → Bool) (a : BaseAction) (k : Nat) : Bool × Nat :=
  performLoop oracle a.type k (a.retry_count + 1)

/-- The run-statistics fields the claims observe
(`ActionController._create_stats`, action_controller.py lines 67-77;
`start_time`, the per-kind count map and the description logs are
reporting-only and not tracked). -/
structure Stats where
  successful_actions : Nat
  failed_actions : Nat
  cycles_completed : Nat
deriving DecidableEq, Repr

/-- The configuration of one `run_automation` call: the controller
fields `actions`, `loop_actions`, `continuous_mode`, `enable_recovery`,
`create_checkpoints` plus the call arguments `max_cycles` and
`max_failures` (defaults 0 and 10). `self.recovery_manager` exists iff
`enable_recovery` (constructor, action_controller.py lines 56-62), so a
single flag models `enable_recovery and self.recovery_manager`. -/
structure Config where
  actions : List Action
  loop_actions : Bool
  continuous_mode : Bool
  enable_recovery : Bool
  create_checkpoints : Bool
  max_cycles : Nat
  max_failures : Nat
deriving Repr

/-- The interval computation, `checkpoint_interval = max(5,
len(self.actions) // 5)` (action_controller.py line 184). -/
def checkpointInterval (n : Nat) : Nat := max 5 (n / 5)

/-- The mutable loop state of `run_automation`: `action_index`,
`consecutive_failures`, `retry_count`, the statistics dict and the
recovery manager's checkpoint list. `oracle_pos` is the model's cursor
into the external-outcome oracle and `step_no` a per-iteration tick
standing in for `time.time()` as checkpoint timestamp. -/
structure RunState where
  action_index : Nat
  consecutive_failures : Nat
  retry_count : Nat
  oracle_pos : Nat
  step_no : Nat
  checkpoints : List Checkpoint
  stats : Stats
deriving DecidableEq, Repr

/-- Why the loop stopped; each constructor labels one `break` of
`run_automation` (spec state `Stopped(reason)`):
`MaxCyclesReached` = line 190-192, `MaxConsecutiveFailures` =
line 195-197, `AbortDirective` = line 291-293 (the
`if action_index < 0` special case), `RequiredActionFailed` =
line 306-308, `LoopDisabled` = line 346-348 ("Automation complete"). -/
inductive StopReason where
  | MaxCyclesReached
  | MaxConsecutiveFailures
  | AbortDirective
  | RequiredActionFailed
  | LoopDisabled
deriving DecidableEq, Repr

/-- Result of one iteration of the `while self.is_running` body:
continue with a new state, `break` with a reason, or raise `IndexError`
at the fetch `self.actions[action_index]` (line 200) when the index is
out of range. -/
inductive StepResult where
  | next (s : RunState)
  | stopped (reason : StopReason) (s : RunState)
  | raised (s : RunState)
deriving DecidableEq, Repr

/-- The state carried by a step result. -/
def StepResult.state : StepResult → RunState
  | .next s => s
  | .stopped _ s => s
  | .raised s => s

/-- Lines 310-353 of `run_automation`: `action_index =
(action_index + 1) % len(self.actions)`; on wraparound to 0 increment
`cycles_completed` and, if looping is disabled, break
("Automation complete"). -/
def advanceIndex (cfg : Config) (s : RunState) : StepResult :=
  let idx := (s.action_index + 1) % cfg.actions.length
  let s1 := { s with action_index := idx }
  if idx = 0 then
    let s2 := { s1 with stats := { s1.stats with
      cycles_completed := s1.stats.cycles_completed + 1 } }
    if cfg.loop_actions then .next s2 else .stopped .LoopDisabled s2
  else .next s1

/-- Lines 299-308 of `run_automation`: reached when recovery is
disabled, recovery failed, or the in-loop retry counter was exhausted;
`cur` is the loop-local `action` variable (possibly a substituted
fallback). In continuous mode a required failure sleeps 2s and retries
the same index (`continue`); otherwise it breaks with
`RequiredActionFailed`. Non-required actions fall through to the
bottom-of-loop advance. -/
def requiredCheck (cfg : Config) (s : RunState) (cur : BaseAction) : StepResult :=
  if cur.required then
    if cfg.continuous_mode then .next s
    else .stopped .RequiredActionFailed s
  else
    advanceIndex cfg s

/-- Lines 222-356 of `run_automation`: the remainder of one loop
iteration once the current action `fetched` has been fetched and the
checkpoint block has run — perform the action, update statistics and
failure counters, and on failure apply the recovery directive, the
required-action handling and the bottom-of-loop index advance. -/
def stepRest (cfg : Config) (oracle : Nat → Bool) (fetched : Action)
    (s : RunState) : StepResult :=
  let cur := fetched.toBase
  -- line 222: success, action_desc = self.perform_action(...)
  let r := perform_action oracle cur s.oracle_pos
  let success := r.1
  let s := { s with oracle_pos := r.2, step_no := s.step_no + 1 }
  -- lines 230-248: statistics and failure counters
  let s := if success then
      { s with
        stats := { s.stats with
          successful_actions := s.stats.successful_actions + 1 }
        consecutive_failures := 0
        retry_count := 0 }
    else
      { s with
        stats := { s.stats with
          failed_actions := s.stats.failed_actions + 1 }
        consecutive_failures := s.consecutive_failures + 1 }
  if success then
    advanceIndex cfg s
  else
    -- lines 251-298: recovery handling
    if cfg.enable_recovery then
      let recovery := get_recovery_for_action fetched
      let rres := apply_recovery_strategy s.checkpoints cur recovery s.action_index
      let recovery_success := rres.1
      let next_action := rres.2.1
      let next_index := rres.2.2
      if recovery_success then
        match next_action with
        | some na =>
          -- lines 265-286: use the (possibly substituted) action
          if next_index = (s.action_index : Int) then
            let rc := s.retry_count + 1
            let max_retries := recovery.params.max_retries.getD 3
            if max_retries < rc then
              -- lines 275-278: exhausted retries; advance index and
              -- fall THROUGH (no continue) to the required check and
              -- the bottom-of-loop advance
              let s := { s with
                retry_count := 0
                action_index := (s.action_index + 1) % cfg.actions.length }
              requiredCheck cfg s na
            else
              -- lines 279-281: stay on the same action
              .next { s with retry_count := rc }
          else
            -- lines 282-286 (unreachable: these strategies return the
            -- same index)
            .next { s with action_index := next_index.toNat, retry_count := 0 }
        | none =>
          -- lines 287-294: checkpoint rewind or skip; the abort break
          -- would need next_index < 0 with recovery_success true
          if next_index < 0 then
            .stopped .AbortDirective { s with retry_count := 0 }
          else
            .next { s with action_index := next_index.toNat, retry_count := 0 }
      else
        -- lines 295-297: "Recovery strategy failed"; fall through
        requiredCheck cfg s cur
    else
      requiredCheck cfg s cur

/-- One iteration of the `while self.is_running` loop of
`ActionController.run_automation` (action_controller.py lines 188-356),
translated branch for branch: the two stop-condition guards, the action
fetch, the periodic checkpoint block, then `stepRest`. -/
def step (cfg : Config) (oracle : Nat → Bool) (s : RunState) : StepResult :=
  -- lines 190-192: maximum-cycles stop condition
  if 0 < cfg.max_cycles ∧ cfg.max_cycles ≤ s.stats.cycles_completed then
    .stopped .MaxCyclesReached s
  -- lines 195-197: consecutive-failures stop condition
  else if 0 < cfg.max_failures ∧ cfg.max_failures ≤ s.consecutive_failures then
    .stopped .MaxConsecutiveFailures s
  else
    -- line 200: action = self.actions[action_index]
    match cfg.actions[s.action_index]? with
    | none => .raised s
    | some fetched =>
      -- lines 202-214: periodic checkpoint creation (never mid-retry)
      let s := if cfg.enable_recovery ∧ cfg.create_checkpoints ∧
          s.action_index % checkpointInterval cfg.actions.length = 0 ∧
          s.retry_count = 0 then
          { s with checkpoints :=
              create_checkpoint s.checkpoints ⟨s.action_index, s.step_no⟩ }
        else s
      stepRest cfg oracle fetched s

/-- Fuel-indexed execution of the loop:
`stopped` = a `break` fired, `raised` = an `IndexError` escaped the
body, `fuelOut` = still running after `fuel` iterations. -/
inductive RunOutcome where
  | stopped (reason : StopReason) (s : RunState)
  | raised (s : RunState)
  | fuelOut (s : RunState)
deriving DecidableEq, Repr

/-- The state at loop exit (for `raised`, the value of `self.stats` and
friends at the moment the exception escaped). -/
def RunOutcome.state : RunOutcome → RunState
  | .stopped _ s => s
  | .raised s => s
  | .fuelOut s => s

/-- The stop reason, when the loop broke. -/
def RunOutcome.reason? : RunOutcome → Option StopReason
  | .stopped r _ => some r
  | _ => none

/-- Whether the loop body raised. -/
def RunOutcome.isRaised : RunOutcome → Bool
  | .raised _ => true
  | _ => false

/-- Whether the loop is still running (fuel exhausted in the model). -/
def RunOutcome.isFuelOut : RunOutcome → Bool
  | .fuelOut _ => true
  | _ => false

/-- Run the loop for at most `fuel` iterations. -/
def runLoop (cfg : Config) (oracle : Nat → Bool) : Nat → RunState → RunOutcome
  | 0, s => .fuelOut s
  | fuel + 1, s =>
    match step cfg oracle s with
    | .next s1 => runLoop cfg oracle fuel s1
    | .stopped r s1 => .stopped r s1
    | .raised s1 => .raised s1

/-- The loop state at the start of `run_automation`
(lines 177-184: fresh statistics, index 0, counters 0; the recovery
manager's checkpoint list is empty). -/
def initState : RunState :=
  ⟨0, 0, 0, 0, 0, [], ⟨0, 0, 0⟩⟩

/-- The observable call result of `ActionController.run_automation`:
either a normal return value or an exception propagated to the caller.
Per Python semantics, the `return self.stats` inside the `finally`
block (action_controller.py lines 361-364) runs on every exit path and
discards any in-flight exception (including the `IndexError` of an
out-of-range fetch; `KeyboardInterrupt` is additionally caught at
line 358), so every outcome of the loop body maps to a normal return of
the statistics as they stood at exit, after the summary display. -/
def run_automation (cfg : Config) (oracle : Nat → Bool) (fuel : Nat) :
    Except String Stats :=
  match runLoop cfg oracle fuel initState with
  | .stopped _ s => .ok s.stats
  | .raised s => .ok s.stats
  | .fuelOut s => .ok s.stats

/-- Whether a call result is a normal return. -/
def exceptOk : Except String Stats → Bool
  | .ok _ => true
  | .error _ => false

/-- The controller fields persisted by `save_actions` and restored by
`load_actions` (action_controller.py lines 45-49): the ordered action
list and the three settings. -/
structure ControllerState where
  actions : List Action
  loop_actions : Bool
  continuous_mode : Bool
  click_interval : ℚ
deriving DecidableEq, Repr

/-- The JSON config document as a key-to-value record; a `none` field
models an absent key, so `config.get(key, default)` is `getD`. The
file-system round trip (`json.dump` then `json.load` of this object) is
the identity on the document and is not modelled separately. -/
structure ConfigDoc where
  actions : Option (List Action)
  loop_actions : Option Bool
  continuous_mode : Option Bool
  click_interval : Option ℚ
deriving DecidableEq, Repr

/-- The writer ActionController.save_actions (action_controller.py
lines 132-161):
the config dict written to the file, with all four keys present. -/
def save_actions (c : ControllerState) : ConfigDoc :=
  ⟨some c.actions, some c.loop_actions, some c.continuous_mode, some c.click_interval⟩

/-- The reader ActionController.load_actions (action_controller.py
lines 79-118),
success path: each field is read with `config.get(key, default)`
(defaults `[]`, `False`, `False`, `0.1`). -/
def load_actions (doc : ConfigDoc) : ControllerState :=
  ⟨doc.actions.getD [], doc.loop_actions.getD false,
    doc.continuous_mode.getD false, doc.click_interval.getD (1/10)⟩

/-! ### Concrete runs used to settle the claims -/

/-- An external world in which every dispatch attempt fails (a target
that is never found / a dispatcher that always reports failure). -/
def orFalse : Nat → Bool := fun _ => false

/-- An external world in which every dispatch attempt succeeds. -/
def orTrue : Nat → Bool := fun _ => true

/-- An explicit `on_failure` override selecting the abort strategy. -/
def abortOnFailure : OnFailure := ⟨some "abort", none, none, none⟩

/-- An explicit `on_failure` override selecting the skip strategy. -/
def skipOnFailure : OnFailure := ⟨some "skip", none, none, none⟩

/-- A non-required position click whose failure aborts, per its
`on_failure` override. -/
def abortClick : Action := ⟨"click_position", false, 0, some abortOnFailure⟩

/-- A non-required position click whose failure is skipped, per its
`on_failure` override. -/
def skipClick : Action := ⟨"click_position", false, 0, some skipOnFailure⟩

/-- A non-required position click with no `on_failure` override. -/
def plainClick : Action := ⟨"click_position", false, 0, none⟩

/-- A required position click with no `on_failure` override. -/
def requiredClick : Action := ⟨"click_position", true, 0, none⟩

/-- A wait action (always succeeds). -/
def waitAction : Action := ⟨"wait", false, 0, none⟩

/-- A looping run over the single abort-on-failure action, with the
`run_automation` argument defaults (`max_cycles=0`, `max_failures=10`). -/
def abortRunCfg : Config := ⟨[abortClick], true, false, true, true, 0, 10⟩

/-- A non-looping, non-continuous run whose first action is a required
position click, over an arbitrary remainder of the store. -/
def requiredRunCfg (rest : List Action) : Config :=
  ⟨requiredClick :: rest, false, false, true, true, 0, 10⟩

/-- A run over three non-required position clicks. -/
def tripleFailCfg : Config :=
  ⟨[plainClick, plainClick, plainClick], true, false, true, true, 0, 10⟩

/-- A run over 26 wait actions (so `len(actions) // 5 = 5` while the
ceiling of `26 / 5` is 6). -/
def manyWaitsCfg : Config := ⟨List.replicate 26 waitAction, true, false, true, true, 0, 10⟩

/-- A looping run over the single skip-on-failure action. -/
def skipRunCfg : Config := ⟨[skipClick], true, false, true, true, 0, 10⟩

/-- A looping run over one wait action. -/
def singleWaitCfg : Config := ⟨[waitAction], true, false, true, true, 0, 10⟩

/-- Six distinct checkpoint records, in creation order. -/
def sixCheckpoints : List Checkpoint :=
  [⟨0, 0⟩, ⟨1, 1⟩, ⟨2, 2⟩, ⟨3, 3⟩, ⟨4, 4⟩, ⟨5, 5⟩]

/-! ### Helper lemmas about the store and the loop -/

/-- A checkpoint returned by `get_checkpoint_before_action cps k` has
`action_index < k`. -/
theorem get_checkpoint_before_lt {cps : List Checkpoint} {k : Nat} {cp : Checkpoint}
    (h : get_checkpoint_before_action cps k = some cp) : cp.action_index < k := by
  have hm : cp ∈ cps.filter (fun cp => cp.action_index < k) :=
    List.mem_of_mem_getLast? (by rw [get_checkpoint_before_action] at h; simp [h])
  have := (List.mem_filter.mp hm).2
  simpa using this

/-- Folding `create_checkpoint` over a creation sequence, starting from
the empty store, retains exactly the trailing (at most 5) creations. -/
theorem foldl_create_eq_drop (cps : List Checkpoint) :
    cps.foldl create_checkpoint [] = cps.drop (cps.length - 5) := by
  induction cps using List.reverseRecOn with
  | nil => rfl
  | append_singleton l a ih =>
    rw [List.foldl_append, List.foldl_cons, List.foldl_nil, ih, create_checkpoint]
    rcases Nat.lt_or_ge l.length 5 with hl | hl
    · have h0 : l.length - 5 = 0 := by omega
      have h1 : l.length + 1 - 5 = 0 := by omega
      simp only [h0, List.drop_zero, List.length_append, List.length_cons,
        List.length_nil, h1]
      rw [if_neg (by simp; omega)]
    · have hle : l.length - 5 ≤ l.length := by omega
      rw [← List.drop_append_of_le_length hle]
      have hlen : ((l ++ [a]).drop (l.length - 5)).length = 6 := by
        rw [List.length_drop, List.length_append]
        simp
        omega
      rw [if_pos (by rw [hlen]; omega), List.drop_drop, List.length_append]
      congr 1
      simp
      omega

/-- The query `get_checkpoint_before_action cps k` returns the most
recently created (last-listed) checkpoint with `action_index < k`: any
returned checkpoint splits the store so that nothing created after it
has `action_index < k`, and a `none` answer means no stored checkpoint
qualifies. -/
theorem cp_before_parts (cps : List Checkpoint) (k : Nat) :
    (∀ cp, get_checkpoint_before_action cps k = some cp →
      cp.action_index < k ∧
      ∃ l1 l2, cps = l1 ++ cp :: l2 ∧ ∀ x ∈ l2, k ≤ x.action_index) ∧
    (get_checkpoint_before_action cps k = none → ∀ cp ∈ cps, k ≤ cp.action_index) := by
  constructor
  · induction cps using List.reverseRecOn with
    | nil => intro cp h; simp [get_checkpoint_before_action] at h
    | append_singleton l a ih =>
      intro cp h
      rw [get_checkpoint_before_action, List.filter_append] at h
      by_cases ha : a.action_index < k
      · rw [List.filter_cons, if_pos (by simpa using ha)] at h
        simp only [List.filter_nil] at h
        rw [List.getLast?_concat] at h
        cases h
        exact ⟨ha, l, [], rfl, by simp⟩
      · rw [List.filter_cons, if_neg (by simpa using ha)] at h
        simp only [List.filter_nil, List.append_nil] at h
        obtain ⟨hlt, l1, l2, heq, hall⟩ := ih cp h
        refine ⟨hlt, l1, l2 ++ [a], by rw [heq]; simp, ?_⟩
        intro x hx
        rcases List.mem_append.mp hx with hx | hx
        · exact hall x hx
        · simp at hx
          subst hx
          omega
  · intro h cp hm
    rw [get_checkpoint_before_action, List.getLast?_eq_none_iff,
      List.filter_eq_nil_iff] at h
    have := h cp hm
    simp at this
    exact this

/-- A bottom-of-loop advance never raises. -/
theorem advanceIndex_not_raised (cfg : Config) (s : RunState) (s1 : RunState) :
    advanceIndex cfg s ≠ .raised s1 := by
  by_cases h0 : (s.action_index + 1) % cfg.actions.length = 0
  · by_cases hl : cfg.loop_actions <;> simp [advanceIndex, h0, hl]
  · simp [advanceIndex, h0]

/-- A bottom-of-loop advance leaves the checkpoint store unchanged. -/
theorem advanceIndex_checkpoints (cfg : Config) (s : RunState) :
    (advanceIndex cfg s).state.checkpoints = s.checkpoints := by
  by_cases h0 : (s.action_index + 1) % cfg.actions.length = 0
  · by_cases hl : cfg.loop_actions <;> simp [advanceIndex, h0, hl, StepResult.state]
  · simp [advanceIndex, h0, StepResult.state]

/-- A continuing bottom-of-loop advance lands strictly inside the
store. -/
theorem advanceIndex_next_lt (cfg : Config) (s : RunState) (h : 0 < cfg.actions.length)
    (s1 : RunState) (he : advanceIndex cfg s = .next s1) :
    s1.action_index < cfg.actions.length := by
  by_cases h0 : (s.action_index + 1) % cfg.actions.length = 0
  · by_cases hl : cfg.loop_actions <;> simp [advanceIndex, h0, hl] at he
    · rw [← he]
      simpa using h
  · simp [advanceIndex, h0] at he
    rw [← he]
    exact Nat.mod_lt _ h

/-- The required-action handling never raises. -/
theorem requiredCheck_not_raised (cfg : Config) (s : RunState) (cur : BaseAction)
    (s1 : RunState) : requiredCheck cfg s cur ≠ .raised s1 := by
  by_cases hr : cur.required
  · by_cases hc : cfg.continuous_mode <;> simp [requiredCheck, hr, hc]
  · simp [requiredCheck, hr]
    exact advanceIndex_not_raised cfg s s1

/-- The required-action handling leaves the checkpoint store
unchanged. -/
theorem requiredCheck_checkpoints (cfg : Config) (s : RunState) (cur : BaseAction) :
    (requiredCheck cfg s cur).state.checkpoints = s.checkpoints := by
  by_cases hr : cur.required
  · by_cases hc : cfg.continuous_mode <;> simp [requiredCheck, hr, hc, StepResult.state]
  · simp [requiredCheck, hr]
    exact advanceIndex_checkpoints cfg s

/-- The required-action handling, entered with an in-bounds index,
continues with an in-bounds index. -/
theorem requiredCheck_next_bound (cfg : Config) (s : RunState) (cur : BaseAction)
    (h : 0 < cfg.actions.length) (hs : s.action_index < cfg.actions.length)
    (s1 : RunState) (he : requiredCheck cfg s cur = .next s1) :
    s1.action_index < cfg.actions.length := by
  by_cases hr : cur.required
  · by_cases hc : cfg.continuous_mode <;> simp [requiredCheck, hr, hc] at he
    · rw [← he]; exact hs
  · simp [requiredCheck, hr] at he
    exact advanceIndex_next_lt cfg s h s1 he

/-- The post-fetch remainder of one iteration leaves the checkpoint
store unchanged: checkpoints are only modified by the checkpoint block
at the top of the loop. -/
theorem stepRest_checkpoints (cfg : Config) (oracle : Nat → Bool) (fetched : Action)
    (s : RunState) : (stepRest cfg oracle fetched s).state.checkpoints = s.checkpoints := by
  unfold stepRest
  by_cases hsucc : (perform_action oracle fetched.toBase s.oracle_pos).1 = true
  · simp only [hsucc, if_true]
    exact advanceIndex_checkpoints cfg _
  · simp only [hsucc, if_false, Bool.false_eq_true]
    by_cases hen : cfg.enable_recovery = true
    · simp only [hen, if_true]
      rcases hra : get_recovery_for_action fetched with ⟨strat, params, fb⟩
      cases strat
      · simp only [hra, apply_recovery_strategy, if_pos rfl]
        by_cases hex : params.max_retries.getD 3 < s.retry_count + 1
        · simp only [hex, if_true]
          rw [requiredCheck_checkpoints]
        · simp only [hex, if_false]
          rfl
      · simp only [hra, apply_recovery_strategy, if_pos rfl]
        by_cases hex : params.max_retries.getD 3 < s.retry_count + 1
        · simp only [hex, if_true]
          rw [requiredCheck_checkpoints]
        · simp only [hex, if_false]
          rfl
      · cases fb with
        | none =>
          simp only [hra, apply_recovery_strategy, Bool.false_eq_true, if_false]
          rw [requiredCheck_checkpoints]
        | some fba =>
          simp only [hra, apply_recovery_strategy, if_pos rfl]
          by_cases hex : params.max_retries.getD 3 < s.retry_count + 1
          · simp only [hex, if_true]
            rw [requiredCheck_checkpoints]
          · simp only [hex, if_false]
            rfl
      · rcases hcp : get_checkpoint_before_action s.checkpoints s.action_index with _ | cp
        · simp only [hra, apply_recovery_strategy, hcp, Bool.false_eq_true, if_false]
          rw [requiredCheck_checkpoints]
        · simp only [hra, apply_recovery_strategy, hcp, if_true]
          rw [if_neg (show ¬((cp.action_index : Int) < 0) by omega)]
          rfl
      · simp only [hra, apply_recovery_strategy, if_true]
        rw [if_neg (show ¬((s.action_index : Int) + 1 < 0) by omega)]
        rfl
      · simp only [hra, apply_recovery_strategy, Bool.false_eq_true, if_false]
        rw [requiredCheck_checkpoints]
    · simp only [hen, if_false, Bool.false_eq_true]
      rw [requiredCheck_checkpoints]

/-- The post-fetch remainder of one iteration never raises: the only
raise site of the loop body is the fetch itself. -/
theorem stepRest_not_raised (cfg : Config) (oracle : Nat → Bool) (fetched : Action)
    (s : RunState) (s1 : RunState) : stepRest cfg oracle fetched s ≠ .raised s1 := by
  unfold stepRest
  by_cases hsucc : (perform_action oracle fetched.toBase s.oracle_pos).1 = true
  · simp only [hsucc, if_true]
    exact advanceIndex_not_raised cfg _ s1
  · simp only [hsucc, if_false, Bool.false_eq_true]
    by_cases hen : cfg.enable_recovery = true
    · simp only [hen, if_true]
      rcases hra : get_recovery_for_action fetched with ⟨strat, params, fb⟩
      cases strat
      · simp only [hra, apply_recovery_strategy, if_pos rfl]
        by_cases hex : params.max_retries.getD 3 < s.retry_count + 1
        · simp only [hex, if_true]
          exact requiredCheck_not_raised cfg _ _ s1
        · simp only [hex, if_false]
          simp
      · simp only [hra, apply_recovery_strategy, if_pos rfl]
        by_cases hex : params.max_retries.getD 3 < s.retry_count + 1
        · simp only [hex, if_true]
          exact requiredCheck_not_raised cfg _ _ s1
        · simp only [hex, if_false]
          simp
      · cases fb with
        | none =>
          simp only [hra, apply_recovery_strategy, Bool.false_eq_true, if_false]
          exact requiredCheck_not_raised cfg _ _ s1
        | some fba =>
          simp only [hra, apply_recovery_strategy, if_pos rfl]
          by_cases hex : params.max_retries.getD 3 < s.retry_count + 1
          · simp only [hex, if_true]
            exact requiredCheck_not_raised cfg _ _ s1
          · simp only [hex, if_false]
            simp
      · rcases hcp : get_checkpoint_before_action s.checkpoints s.action_index with _ | cp
        · simp only [hra, apply_recovery_strategy, hcp, Bool.false_eq_true, if_false]
          exact requiredCheck_not_raised cfg _ _ s1
        · simp only [hra, apply_recovery_strategy, hcp, if_true]
          rw [if_neg (show ¬((cp.action_index : Int) < 0) by omega)]
          simp
      · simp only [hra, apply_recovery_strategy, if_true]
        rw [if_neg (show ¬((s.action_index : Int) + 1 < 0) by omega)]
        simp
      · simp only [hra, apply_recovery_strategy, Bool.false_eq_true, if_false]
        exact requiredCheck_not_raised cfg _ _ s1
    · simp only [hen, if_false, Bool.false_eq_true]
      exact requiredCheck_not_raised cfg _ _ s1

/-- The post-fetch remainder of one iteration, entered with an in-bounds
index, continues with an index at most `len(actions)`, and reaches
`len(actions)` exactly by applying a Skip directive at the last index. -/
theorem stepRest_next_bound (cfg : Config) (oracle : Nat → Bool) (fetched : Action)
    (s : RunState) (h : s.action_index < cfg.actions.length) (s1 : RunState)
    (he : stepRest cfg oracle fetched s = .next s1) :
    s1.action_index ≤ cfg.actions.length ∧
    (s1.action_index = cfg.actions.length →
      s.action_index + 1 = cfg.actions.length ∧
      (get_recovery_for_action fetched).strategy = .SKIP) := by
  have hn : 0 < cfg.actions.length := by omega
  unfold stepRest at he
  by_cases hsucc : (perform_action oracle fetched.toBase s.oracle_pos).1 = true
  · simp only [hsucc, if_true] at he
    have := advanceIndex_next_lt cfg _ hn s1 he
    exact ⟨Nat.le_of_lt this, fun heq => absurd heq (by omega)⟩
  · simp only [hsucc, if_false, Bool.false_eq_true] at he
    by_cases hen : cfg.enable_recovery = true
    · simp only [hen, if_true] at he
      rcases hra : get_recovery_for_action fetched with ⟨strat, params, fb⟩
      rw [hra] at he
      cases strat
      · simp only [apply_recovery_strategy, if_pos rfl] at he
        by_cases hex : params.max_retries.getD 3 < s.retry_count + 1
        · simp only [hex, if_true] at he
          have := requiredCheck_next_bound cfg _ _ hn (by simpa using Nat.mod_lt _ hn) s1 he
          exact ⟨Nat.le_of_lt this, fun heq => absurd heq (by omega)⟩
        · simp only [hex, if_false] at he
          cases he
          exact ⟨Nat.le_of_lt h, fun heq => absurd heq (by simp; omega)⟩
      · simp only [apply_recovery_strategy, if_pos rfl] at he
        by_cases hex : params.max_retries.getD 3 < s.retry_count + 1
        · simp only [hex, if_true] at he
          have := requiredCheck_next_bound cfg _ _ hn (by simpa using Nat.mod_lt _ hn) s1 he
          exact ⟨Nat.le_of_lt this, fun heq => absurd heq (by omega)⟩
        · simp only [hex, if_false] at he
          cases he
          exact ⟨Nat.le_of_lt h, fun heq => absurd heq (by simp; omega)⟩
      · cases fb with
        | none =>
          simp only [apply_recovery_strategy, Bool.false_eq_true, if_false] at he
          have := requiredCheck_next_bound cfg _ _ hn (by simpa using h) s1 he
          exact ⟨Nat.le_of_lt this, fun heq => absurd heq (by omega)⟩
        | some fba =>
          simp only [apply_recovery_strategy, if_pos rfl] at he
          by_cases hex : params.max_retries.getD 3 < s.retry_count + 1
          · simp only [hex, if_true] at he
            have := requiredCheck_next_bound cfg _ _ hn (by simpa using Nat.mod_lt _ hn) s1 he
            exact ⟨Nat.le_of_lt this, fun heq => absurd heq (by omega)⟩
          · simp only [hex, if_false] at he
            cases he
            exact ⟨Nat.le_of_lt h, fun heq => absurd heq (by simp; omega)⟩
      · rcases hcp : get_checkpoint_before_action s.checkpoints s.action_index with _ | cp
        · simp only [apply_recovery_strategy, hcp, Bool.false_eq_true, if_false] at he
          have := requiredCheck_next_bound cfg _ _ hn (by simpa using h) s1 he
          exact ⟨Nat.le_of_lt this, fun heq => absurd heq (by omega)⟩
        · simp only [apply_recovery_strategy, hcp, if_true] at he
          rw [if_neg (show ¬((cp.action_index : Int) < 0) by omega)] at he
          cases he
          have hlt := get_checkpoint_before_lt hcp
          refine ⟨?_, fun heq => absurd heq ?_⟩ <;> simp <;> omega
      · simp only [apply_recovery_strategy, if_true] at he
        rw [if_neg (show ¬((s.action_index : Int) + 1 < 0) by omega)] at he
        cases he
        refine ⟨by simp; omega, fun heq => ⟨?_, rfl⟩⟩
        simp at heq
        omega
      · simp only [apply_recovery_strategy, Bool.false_eq_true, if_false] at he
        have := requiredCheck_next_bound cfg _ _ hn (by simpa using h) s1 he
        exact ⟨Nat.le_of_lt this, fun heq => absurd heq (by omega)⟩
    · simp only [hen, if_false, Bool.false_eq_true] at he
      have := requiredCheck_next_bound cfg _ _ hn (by simpa using h) s1 he
      exact ⟨Nat.le_of_lt this, fun heq => absurd heq (by omega)⟩

/-! ### Claims -/

/-- C1 (refuted; code bug): the claim says that whenever the Recovery
Policy Resolver returns an Abort directive for a failed action, the loop
stops the run immediately with reason AbortDirective and no further
action is ever attempted. In the code, `apply_recovery_strategy` returns
`(False, None, -1)` for ABORT, so `recovery_success` is false and the
`if action_index < 0: break` at action_controller.py lines 291-293 (the
only break producing the abort stop) is unreachable; the failure falls
through to the ordinary required/advance handling. Concretely: a looping
run over one non-required always-failing action with an "abort" override
resolves the Abort directive on its first failure, yet after two
iterations the run is still going and a second attempt has been made
(`failed_actions = 2`), and no AbortDirective stop ever occurred. -/
theorem abort_directive_run_continues :
    (get_recovery_for_action abortClick).strategy = .ABORT ∧
    apply_recovery_strategy [⟨0, 0⟩] abortClick.toBase
      (get_recovery_for_action abortClick) 0 = (false, none, -1) ∧
    (runLoop abortRunCfg orFalse 2 initState).isFuelOut = true ∧
    (runLoop abortRunCfg orFalse 2 initState).state.stats.failed_actions = 2 ∧
    (runLoop abortRunCfg orFalse 2 initState).reason? ≠ some StopReason.AbortDirective := by
  decide

/-- C2 (confirmed): for every store whose first action is a required,
non-overridden PositionClick whose dispatch always fails, in a
non-continuous run, the first two iterations stay on index 0 under the
default Retry(max_retries=2) directive (one failed attempt each), and
the third iteration exhausts the directive and stops the run with
RequiredActionFailed — three failed attempts in total, all at index 0,
and no successful action. -/
theorem required_failure_stops_after_three_attempts (rest : List Action) :
    ((runLoop (requiredRunCfg rest) orFalse 1 initState).isFuelOut = true ∧
      (runLoop (requiredRunCfg rest) orFalse 1 initState).state.action_index = 0 ∧
      (runLoop (requiredRunCfg rest) orFalse 1 initState).state.stats.failed_actions = 1) ∧
    ((runLoop (requiredRunCfg rest) orFalse 2 initState).isFuelOut = true ∧
      (runLoop (requiredRunCfg rest) orFalse 2 initState).state.action_index = 0 ∧
      (runLoop (requiredRunCfg rest) orFalse 2 initState).state.stats.failed_actions = 2) ∧
    ((runLoop (requiredRunCfg rest) orFalse 3 initState).reason? =
        some StopReason.RequiredActionFailed ∧
      (runLoop (requiredRunCfg rest) orFalse 3 initState).state.stats.failed_actions = 3 ∧
      (runLoop (requiredRunCfg rest) orFalse 3 initState).state.stats.successful_actions = 0) := by
  have h1 : step (requiredRunCfg rest) orFalse initState =
      .next ⟨0, 1, 1, 1, 1, [⟨0, 0⟩], ⟨0, 1, 0⟩⟩ := by
    simp [step, stepRest, requiredRunCfg, initState, requiredClick, orFalse,
      perform_action, performLoop, performOnce, Action.toBase,
      get_recovery_for_action, defaultRecoveryFor, RecoveryAction.make,
      apply_recovery_strategy, requiredCheck, advanceIndex,
      checkpointInterval, create_checkpoint]
  have h2 : step (requiredRunCfg rest) orFalse ⟨0, 1, 1, 1, 1, [⟨0, 0⟩], ⟨0, 1, 0⟩⟩ =
      .next ⟨0, 2, 2, 2, 2, [⟨0, 0⟩], ⟨0, 2, 0⟩⟩ := by
    simp [step, stepRest, requiredRunCfg, requiredClick, orFalse,
      perform_action, performLoop, performOnce, Action.toBase,
      get_recovery_for_action, defaultRecoveryFor, RecoveryAction.make,
      apply_recovery_strategy, requiredCheck, advanceIndex,
      checkpointInterval, create_checkpoint]
  have h3 : step (requiredRunCfg rest) orFalse ⟨0, 2, 2, 2, 2, [⟨0, 0⟩], ⟨0, 2, 0⟩⟩ =
      .stopped .RequiredActionFailed
        ⟨1 % (rest.length + 1), 3, 0, 3, 3, [⟨0, 0⟩], ⟨0, 3, 0⟩⟩ := by
    simp [step, stepRest, requiredRunCfg, requiredClick, orFalse,
      perform_action, performLoop, performOnce, Action.toBase,
      get_recovery_for_action, defaultRecoveryFor, RecoveryAction.make,
      apply_recovery_strategy, requiredCheck, advanceIndex,
      checkpointInterval, create_checkpoint]
  simp [runLoop, h1, h2, h3, RunOutcome.reason?, RunOutcome.state, RunOutcome.isFuelOut]

/-- C3 (refuted; code bug): the claim says that under a Retry directive
a non-required action keeps its index while the in-loop retry counter is
at most `max_retries`, and on the step where the counter exceeds
`max_retries` the loop advances to the immediately next index
`(index + 1) % len(actions)` and no further. The first part holds, but
on the exceeding step the code increments the index twice: once in the
retries-exceeded branch (action_controller.py line 278) and — because
that branch has no `continue` — once more at the bottom-of-loop advance
(line 311), resuming at `(index + 2) % len(actions)` and never
attempting the action in between. Concretely: three non-required
position clicks with the default Retry(max_retries=2), always failing at
index 0: after the first two iterations the index is still 0, and the
third failure resets the counter but resumes at index 2, not 1. -/
theorem retry_exhaustion_double_advance :
    (runLoop tripleFailCfg orFalse 1 initState).state.action_index = 0 ∧
    (runLoop tripleFailCfg orFalse 1 initState).state.retry_count = 1 ∧
    (runLoop tripleFailCfg orFalse 2 initState).state.action_index = 0 ∧
    (runLoop tripleFailCfg orFalse 2 initState).state.retry_count = 2 ∧
    (runLoop tripleFailCfg orFalse 3 initState).state.action_index = 2 ∧
    (runLoop tripleFailCfg orFalse 3 initState).state.retry_count = 0 ∧
    (runLoop tripleFailCfg orFalse 3 initState).state.stats.failed_actions = 3 := by
  decide

/-- C4 counterexample: `get_checkpoint_before_action` does not return
the stored checkpoint with the greatest `action_index` below the query
index — it returns the last-listed qualifying checkpoint. On the store
holding a checkpoint at index 10 and then one at index 3, the query
`before(12)` returns the index-3 checkpoint although the index-10 one
also qualifies and has the greater index. -/
theorem checkpoint_before_not_greatest :
    get_checkpoint_before_action [⟨10, 0⟩, ⟨3, 1⟩] 12 = some ⟨3, 1⟩ ∧
    (⟨10, 0⟩ : Checkpoint) ∈ ([⟨10, 0⟩, ⟨3, 1⟩] : List Checkpoint) ∧
    (⟨10, 0⟩ : Checkpoint).action_index < 12 ∧
    ¬ ((⟨10, 0⟩ : Checkpoint).action_index ≤ (⟨3, 1⟩ : Checkpoint).action_index) := by
  decide

/-- C4 (amended): for every checkpoint store state and index `k`,
`get_checkpoint_before_action` returns the most recently created
(last-listed) checkpoint with `action_index < k` — no checkpoint created
after the returned one qualifies — or `none` when no stored checkpoint
has `action_index < k`; and when it returns `none`, applying a
Checkpoint directive reports recovery as failed
(`(False, None, action_index)`). This coincides with "the greatest
`action_index < k`" only when the stored indices are in creation order
nondecreasing. -/
theorem checkpoint_before_spec (cps : List Checkpoint) (k : Nat) :
    (∀ cp, get_checkpoint_before_action cps k = some cp →
      cp.action_index < k ∧
      ∃ l1 l2, cps = l1 ++ cp :: l2 ∧ ∀ x ∈ l2, k ≤ x.action_index) ∧
    (get_checkpoint_before_action cps k = none → ∀ cp ∈ cps, k ≤ cp.action_index) ∧
    (get_checkpoint_before_action cps k = none → ∀ a p fb,
      apply_recovery_strategy cps a ⟨.CHECKPOINT, p, fb⟩ k = (false, none, (k : Int))) := by
  refine ⟨(cp_before_parts cps k).1, (cp_before_parts cps k).2, fun hn a p fb => ?_⟩
  simp [apply_recovery_strategy, hn]

/-- C4 witness: the amended characterization applied to the two-element
store of the counterexample and to the empty store. -/
theorem checkpoint_before_spec_witness :
    ((⟨3, 1⟩ : Checkpoint).action_index < 12 ∧
      ∃ l1 l2, ([⟨10, 0⟩, ⟨3, 1⟩] : List Checkpoint) = l1 ++ (⟨3, 1⟩ : Checkpoint) :: l2 ∧
        ∀ x ∈ l2, 12 ≤ x.action_index) ∧
    apply_recovery_strategy [] ⟨"click_position", false, 0⟩
      ⟨.CHECKPOINT, ⟨none, none⟩, none⟩ 7 = (false, none, (7 : Int)) :=
  ⟨(checkpoint_before_spec [⟨10, 0⟩, ⟨3, 1⟩] 12).1 ⟨3, 1⟩ (by decide),
    (checkpoint_before_spec [] 7).2.2 (by decide)
      ⟨"click_position", false, 0⟩ ⟨none, none⟩ none⟩

/-- C5 counterexample: the checkpoint interval is
`max(5, len(actions) // 5)` — integer (floor) division — not
`max(5, ceil(len(actions)/5))` as the claim states. With 26 actions the
code interval is 5 while the claimed interval is 6, and a run of six
all-succeeding iterations creates checkpoints at indices 0 and 5, the
latter at an index that is not a multiple of the claimed interval 6
(under the claim, index 5 would create none). -/
theorem checkpoint_interval_floor_counterexample :
    checkpointInterval 26 = 5 ∧
    max 5 ((26 + 5 - 1) / 5) = 6 ∧
    (runLoop manyWaitsCfg orTrue 6 initState).state.checkpoints.map
      Checkpoint.action_index = [0, 5] ∧
    ¬ (5 % max 5 ((26 + 5 - 1) / 5) = 0) := by
  decide

/-- C5 (amended): at every loop iteration that reaches the fetch (the
cycle and consecutive-failure guards did not fire) with checkpointing
and recovery enabled and an in-bounds index, a checkpoint is created
exactly when the index is a multiple of `max(5, len(actions) // 5)` —
the floor, not the ceiling, of `len(actions)/5` with a minimum of 5 —
and no retry is in progress (`retry_count = 0`); otherwise the
checkpoint store is unchanged. -/
theorem checkpoint_cadence_floor_interval (cfg : Config) (oracle : Nat → Bool)
    (s : RunState)
    (hmc : ¬ (0 < cfg.max_cycles ∧ cfg.max_cycles ≤ s.stats.cycles_completed))
    (hmf : ¬ (0 < cfg.max_failures ∧ cfg.max_failures ≤ s.consecutive_failures))
    (hidx : s.action_index < cfg.actions.length)
    (hen : cfg.enable_recovery = true) (hcc : cfg.create_checkpoints = true) :
    (step cfg oracle s).state.checkpoints =
      if s.action_index % max 5 (cfg.actions.length / 5) = 0 ∧ s.retry_count = 0 then
        create_checkpoint s.checkpoints ⟨s.action_index, s.step_no⟩
      else s.checkpoints := by
  unfold step
  rw [if_neg hmc, if_neg hmf, List.getElem?_eq_getElem hidx]
  by_cases hck : s.action_index % max 5 (cfg.actions.length / 5) = 0 ∧ s.retry_count = 0
  · rw [if_pos hck]
    rw [if_pos ⟨hen, hcc, by rw [checkpointInterval]; exact hck.1, hck.2⟩]
    rw [stepRest_checkpoints]
  · rw [if_neg hck]
    rw [if_neg (fun hc => hck ⟨by rw [checkpointInterval] at hc; exact hc.2.2.1, hc.2.2.2⟩)]
    rw [stepRest_checkpoints]

/-- C5 witness: the cadence characterization applied to the first
iteration of the 26-wait-actions run. -/
theorem checkpoint_cadence_floor_interval_witness :
    (¬ (0 < manyWaitsCfg.max_cycles ∧
        manyWaitsCfg.max_cycles ≤ initState.stats.cycles_completed) ∧
      ¬ (0 < manyWaitsCfg.max_failures ∧
        manyWaitsCfg.max_failures ≤ initState.consecutive_failures) ∧
      initState.action_index < manyWaitsCfg.actions.length) ∧
    (step manyWaitsCfg orTrue initState).state.checkpoints =
      (if initState.action_index % max 5 (manyWaitsCfg.actions.length / 5) = 0 ∧
          initState.retry_count = 0 then
        create_checkpoint initState.checkpoints
          ⟨initState.action_index, initState.step_no⟩
      else initState.checkpoints) :=
  ⟨⟨by decide, by decide, by decide⟩,
    checkpoint_cadence_floor_interval manyWaitsCfg orTrue initState
      (by decide) (by decide) (by decide) rfl rfl⟩

/-- C6 (confirmed): after more than five checkpoint creations (starting
from the empty store), the store holds exactly five checkpoints, and
they are exactly the five most recently created, in creation order —
each insertion beyond capacity evicts the oldest. -/
theorem checkpoint_store_keeps_last_five (creations : List Checkpoint)
    (h : 5 < creations.length) :
    (creations.foldl create_checkpoint []).length = 5 ∧
    creations.foldl create_checkpoint [] =
      creations.drop (creations.length - 5) := by
  refine ⟨?_, foldl_create_eq_drop creations⟩
  rw [foldl_create_eq_drop, List.length_drop]
  omega

/-- C6 witness: six creations retain the last five. -/
theorem checkpoint_store_keeps_last_five_witness :
    5 < sixCheckpoints.length ∧
    ((sixCheckpoints.foldl create_checkpoint []).length = 5 ∧
      sixCheckpoints.foldl create_checkpoint [] =
        sixCheckpoints.drop (sixCheckpoints.length - 5)) :=
  ⟨by decide, checkpoint_store_keeps_last_five sixCheckpoints (by decide)⟩

/-- C7 (confirmed): for every action with no `on_failure` field, the
resolver returns the kind-based default directive: `click_text` maps to
WaitAndRetry with max_retries 3 and wait 2.0 seconds, `click_template`
to WaitAndRetry with max_retries 3 and wait 1.5 seconds,
`click_position` and `type_text` to Retry with max_retries 2, and every
other kind to Retry with max_retries 1. -/
theorem default_recovery_mapping (a : Action) (h : a.on_failure = none) :
    (a.type = "click_text" →
      get_recovery_for_action a = ⟨.WAIT_AND_RETRY, ⟨some 3, some 2⟩, none⟩) ∧
    (a.type = "click_template" →
      get_recovery_for_action a = ⟨.WAIT_AND_RETRY, ⟨some 3, some (3/2)⟩, none⟩) ∧
    (a.type = "click_position" →
      get_recovery_for_action a = ⟨.RETRY, ⟨some 2, none⟩, none⟩) ∧
    (a.type = "type_text" →
      get_recovery_for_action a = ⟨.RETRY, ⟨some 2, none⟩, none⟩) ∧
    (a.type ≠ "click_text" → a.type ≠ "click_template" →
      a.type ≠ "click_position" → a.type ≠ "type_text" →
      get_recovery_for_action a = ⟨.RETRY, ⟨some 1, none⟩, none⟩) := by
  refine ⟨fun ht => ?_, fun ht => ?_, fun ht => ?_, fun ht => ?_,
    fun h1 h2 h3 h4 => ?_⟩ <;>
    simp [get_recovery_for_action, h, defaultRecoveryFor, RecoveryAction.make, *]

/-- C7 witness: the mapping applied to a concrete text click and to a
concrete unknown kind. -/
theorem default_recovery_mapping_witness :
    get_recovery_for_action ⟨"click_text", false, 0, none⟩ =
      ⟨.WAIT_AND_RETRY, ⟨some 3, some 2⟩, none⟩ ∧
    get_recovery_for_action ⟨"scroll", false, 0, none⟩ =
      ⟨.RETRY, ⟨some 1, none⟩, none⟩ :=
  ⟨(default_recovery_mapping ⟨"click_text", false, 0, none⟩ rfl).1 rfl,
    (default_recovery_mapping ⟨"scroll", false, 0, none⟩ rfl).2.2.2.2
      (by decide) (by decide) (by decide) (by decide)⟩

/-- C8 (confirmed): saving a controller state with `save_actions` and
loading the resulting config document with `load_actions` restores
exactly the same ordered action list and the same `loop_actions`,
`continuous_mode` and `click_interval` settings. -/
theorem save_load_round_trip (c : ControllerState) :
    load_actions (save_actions c) = c := rfl

/-- C9 counterexample: the in-bounds invariant on the fetch
`self.actions[action_index]` does not survive a Skip directive applied
at the last action index. On a looping run over one non-required
always-failing action with a "skip" override, the first iteration
applies Skip at index 0 (the last index), setting the index to 1 =
`len(actions)`, and the second iteration's fetch raises IndexError. -/
theorem skip_at_last_index_raises :
    (runLoop skipRunCfg orFalse 2 initState).isRaised = true ∧
    (runLoop skipRunCfg orFalse 2 initState).state.action_index = 1 ∧
    skipRunCfg.actions.length = 1 := by
  decide

/-- C9 (amended): from a state whose index is in bounds, one loop
iteration never raises, and any continuing iteration lands on an index
at most `len(actions)`; the index reaches `len(actions)` (making the
next fetch raise) only when the iteration applied the resolved directive
of the fetched action with strategy Skip at the last index
(`index + 1 = len(actions)`). For every other outcome the invariant
`action_index < len(actions)` is preserved. -/
theorem step_index_bound_skip_exception (cfg : Config) (oracle : Nat → Bool)
    (s : RunState) (h : s.action_index < cfg.actions.length) :
    (∀ s1, step cfg oracle s ≠ .raised s1) ∧
    (∀ s1, step cfg oracle s = .next s1 →
      s1.action_index ≤ cfg.actions.length ∧
      (s1.action_index = cfg.actions.length →
        s.action_index + 1 = cfg.actions.length ∧
        (get_recovery_for_action cfg.actions[s.action_index]).strategy = .SKIP)) := by
  unfold step
  by_cases hmc : 0 < cfg.max_cycles ∧ cfg.max_cycles ≤ s.stats.cycles_completed
  · rw [if_pos hmc]
    exact ⟨fun s1 hne => StepResult.noConfusion hne,
      fun s1 hne => StepResult.noConfusion hne⟩
  rw [if_neg hmc]
  by_cases hmf : 0 < cfg.max_failures ∧ cfg.max_failures ≤ s.consecutive_failures
  · rw [if_pos hmf]
    exact ⟨fun s1 hne => StepResult.noConfusion hne,
      fun s1 hne => StepResult.noConfusion hne⟩
  rw [if_neg hmf, List.getElem?_eq_getElem h]
  by_cases hck : cfg.enable_recovery ∧ cfg.create_checkpoints ∧
      s.action_index % checkpointInterval cfg.actions.length = 0 ∧ s.retry_count = 0
  · rw [if_pos hck]
    refine ⟨fun s1 hne => ?_, fun s1 he => ?_⟩
    · dsimp only at hne
      exact stepRest_not_raised cfg oracle _ _ s1 hne
    · dsimp only at he
      exact stepRest_next_bound cfg oracle _
        { s with checkpoints :=
            create_checkpoint s.checkpoints ⟨s.action_index, s.step_no⟩ }
        (by simpa using h) s1 he
  · rw [if_neg hck]
    refine ⟨fun s1 hne => ?_, fun s1 he => ?_⟩
    · dsimp only at hne
      exact stepRest_not_raised cfg oracle _ _ s1 hne
    · dsimp only at he
      exact stepRest_next_bound cfg oracle _ _ h s1 he

/-- C9 witness: the bound applied to the first iteration of the
single-wait-action run. -/
theorem step_index_bound_skip_exception_witness :
    initState.action_index < singleWaitCfg.actions.length ∧
    ((∀ s1, step singleWaitCfg orTrue initState ≠ .raised s1) ∧
      (∀ s1, step singleWaitCfg orTrue initState = .next s1 →
        s1.action_index ≤ singleWaitCfg.actions.length ∧
        (s1.action_index = singleWaitCfg.actions.length →
          initState.action_index + 1 = singleWaitCfg.actions.length ∧
          (get_recovery_for_action
            (singleWaitCfg.actions.get ⟨0, by decide⟩)).strategy = .SKIP))) :=
  ⟨by decide,
    step_index_bound_skip_exception singleWaitCfg orTrue initState (by decide)⟩

/-- C10 (confirmed): for every configuration, every behaviour of the
external collaborators and every fuel bound, the observable result of
`run_automation` is a normal return of the statistics as they stood when
the loop exited — never a propagated exception. The `return self.stats`
inside the `finally` block runs on every exit path (normal break, raised
IndexError, KeyboardInterrupt) and, by Python semantics, discards any
in-flight exception; the summary display precedes that return. -/
theorem run_automation_always_returns (cfg : Config) (oracle : Nat → Bool)
    (fuel : Nat) :
    run_automation cfg oracle fuel =
      .ok (runLoop cfg oracle fuel initState).state.stats ∧
    exceptOk (run_automation cfg oracle fuel) = true := by
  unfold run_automation exceptOk
  cases runLoop cfg oracle fuel initState <;> exact ⟨rfl, rfl⟩

end Clicky
